import Mathlib

/-!
Shallow embedding of `src/main/place_objects.py` (repository
`Fifty5D/All-3den-objects-placed`): a script that iterates over the rows of a
scrollable object list, classifies each row by pixel-color sampling, and
clicks to place valid items on a world grid.

Modelling conventions:
* Python unbounded `int` is `Int`; Python floor division `//` is `Int.fdiv`
  and Python `%` is `Int.fmod` (both floor-convention, matching Python).
* The pyautogui library is an external collaborator; its observable calls are
  collected in `Env`.  A pyautogui call that may raise is modelled with
  `Option` (`none` = the call raised an exception).
* Side effects performed by the script (scrolling, mouse moves, clicks,
  printed lines, pixel samples) are recorded in an event trace; `time.sleep`
  calls and the `pyautogui.FAILSAFE = True` assignment have no observable
  effect in this model and are omitted.
* The `while` loop of `place_objects` has no intrinsic bound, so it is run on
  explicit fuel: `none` means the fuel was exhausted with the loop still
  running, `some s` means the loop condition became false in state `s`.
* Configuration fields that feed only external collaborators
  (`anchor_template` path, `confidence`, and the float delays `click_delay`,
  `place_delay`, `scroll_delay`) are absorbed into `Env` / omitted, since the
  model does not track wall-clock time.
-/

/-- RGB triple as passed to `pyautogui.pixelMatchesColor`. -/
abbrev RGB := Int × Int × Int

/-- Mirror of the Python dataclass `PlacementConfig` (fields used by the
core; defaults copied from the dataclass). -/
structure PlacementConfig where
  row_height : Int := 26
  list_offset_x : Int := 10
  list_offset_y : Int := 40
  screen_height : Option Int := none
  spacing_pixels : Int := 120
  per_row : Int := 15
  scroll_clicks_per_row : Int := 3
  limit : Option Int := none
  placement_origin : Option (Int × Int) := none
  category_color : Option RGB := none
  category_color_tolerance : Int := 8
  category_icon_offset_x : Int := -14
  item_color : Option RGB := some (142, 125, 18)
  item_color_tolerance : Int := 10
  item_color_offset_x : Int := 26
  item_color_offset_y : Int := 12
  require_item_color : Bool := true
  dry_run : Bool := false
  deriving Repr

/-- Mirror of `pyautogui.Box` (left, top, width, height). -/
structure Box where
  left : Int
  top : Int
  width : Int
  height : Int
  deriving DecidableEq, Repr

/-- The external pyautogui collaborator, as consumed by the script.
`pixelMatches x y rgb tol` models `pyautogui.pixelMatchesColor`; `none`
means the call raised (e.g. coordinate off-screen).  `screenSize = none`
means `pyautogui.size()` raised.  `locate = none` means
`pyautogui.locateOnScreen` returned `None`. -/
structure Env where
  templateExists : Bool
  locate : Option Box
  position : Int × Int
  screenSize : Option Int
  pixelMatches : Int → Int → RGB → Int → Option Bool

/-- Observable side effects issued by the script, in order. -/
inductive Event where
  | scroll (amount x y : Int)
  | moveTo (x y : Int)
  | click
  | samplePixel (x y : Int)
  | printSkip (index : Int) (x y : Int)
  | printWould (listX listY worldX worldY : Int)
  deriving DecidableEq, Repr

/-- Mutable loop state of `place_objects` (lines 152-154), plus the trace of
events emitted so far. -/
structure IterState where
  scroll_rows_consumed : Int
  placed : Int
  index : Int
  trace : List Event
  deriving DecidableEq, Repr

/-- Embedding of `locate_anchor` (lines 55-73): `none` models the raised
`RuntimeError` (template file missing, or anchor not found on screen). -/
def locate_anchor (env : Env) : Option Box :=
  if env.templateExists then env.locate else none

/-- Embedding of `safe_screen_height` (lines 76-82): detected height, or the
default 1080 when `pyautogui.size()` raises. -/
def safe_screen_height (env : Env) : Int :=
  match env.screenSize with
  | some h => h
  | none => 1080

/-- Embedding of `is_category_row` (lines 85-106), also returning the pixel
samples it performs.  Returns `false` when no category color is configured;
an exception from `pixelMatchesColor` (modelled by `none`) yields `false`
(the `except Exception` handler), and no exception escapes: the function is
total. -/
def is_category_rowE (env : Env) (list_x list_y : Int) (cfg : PlacementConfig) :
    Bool × List Event :=
  match cfg.category_color with
  | none => (false, [])
  | some c =>
    let icon_x := list_x + cfg.category_icon_offset_x
    match env.pixelMatches icon_x list_y c cfg.category_color_tolerance with
    | some b => (b, [Event.samplePixel icon_x list_y])
    | none => (false, [Event.samplePixel icon_x list_y])

/-- The boolean result of `is_category_row`. -/
def is_category_row (env : Env) (list_x list_y : Int) (cfg : PlacementConfig) : Bool :=
  (is_category_rowE env list_x list_y cfg).1

/-- Embedding of `row_has_item_color` (lines 109-131), also returning the
pixel samples it performs.  Returns `true` when `item_color` is `None` or the
check is disabled; an exception from `pixelMatchesColor` (modelled by `none`)
yields `false`, and no exception escapes: the function is total. -/
def row_has_item_colorE (env : Env) (list_x list_y : Int) (cfg : PlacementConfig) :
    Bool × List Event :=
  match cfg.item_color with
  | none => (true, [])
  | some c =>
    if cfg.require_item_color then
      let sample_x := list_x + cfg.item_color_offset_x
      let sample_y := list_y + cfg.item_color_offset_y
      match env.pixelMatches sample_x sample_y c cfg.item_color_tolerance with
      | some b => (b, [Event.samplePixel sample_x sample_y])
      | none => (false, [Event.samplePixel sample_x sample_y])
    else (true, [])

/-- The boolean result of `row_has_item_color`. -/
def row_has_item_color (env : Env) (list_x list_y : Int) (cfg : PlacementConfig) : Bool :=
  (row_has_item_colorE env list_x list_y cfg).1

/-- Row currently in view for a state: `index - scroll_rows_consumed`
(line 157 / line 165). -/
def rowInView (s : IterState) : Int :=
  s.index - s.scroll_rows_consumed

/-- Visible row capacity (line 150):
`max(1, (screen_height - list_start_y) // row_height)`. -/
def visibleRows (screen_height list_start_y row_height : Int) : Int :=
  max 1 (Int.fdiv (screen_height - list_start_y) row_height)

/-- The scroll-reconciliation step (lines 157-165): if the row in view is at
or past the visible capacity, scroll down by `rows_to_scroll` logical rows
(one `pyautogui.scroll` call, skipped in dry-run) and consume them. -/
def reconcile (cfg : PlacementConfig) (list_start_x list_start_y vis : Int)
    (s : IterState) : IterState :=
  if vis ≤ s.index - s.scroll_rows_consumed then
    let rows_to_scroll := (s.index - s.scroll_rows_consumed) - vis + 1
    let scroll_amount := -cfg.scroll_clicks_per_row * rows_to_scroll
    { s with
      scroll_rows_consumed := s.scroll_rows_consumed + rows_to_scroll
      trace :=
        if cfg.dry_run then s.trace
        else s.trace ++ [Event.scroll scroll_amount list_start_x list_start_y] }
  else s

/-- The placement-planner computation (lines 178-183): grid position for the
`placed`-th object.  `Int.fmod` / `Int.fdiv` are Python's `%` / `//`. -/
def positionFor (origin : Int × Int) (per_row spacing : Int) (placed : Int) :
    Int × Int :=
  (origin.1 + Int.fmod placed per_row * spacing,
   origin.2 + Int.fdiv placed per_row * spacing)

/-- One iteration of the `while` body of `place_objects` (lines 157-197),
entered with the loop condition true.  The Python guards
`if not cfg.dry_run and is_category_row(...)` and
`if not cfg.dry_run and not row_has_item_color(...)` short-circuit, so in
dry-run no pixel is sampled. -/
def loopBody (env : Env) (cfg : PlacementConfig)
    (list_start_x list_start_y vis : Int) (origin : Int × Int)
    (s : IterState) : IterState :=
  let s1 := reconcile cfg list_start_x list_start_y vis s
  let list_pos : Int × Int :=
    (list_start_x, list_start_y + rowInView s1 * cfg.row_height)
  let cat :=
    if cfg.dry_run then (false, [])
    else is_category_rowE env list_pos.1 list_pos.2 cfg
  let s2 := { s1 with trace := s1.trace ++ cat.2 }
  if cat.1 then { s2 with index := s2.index + 1 }
  else
    let item :=
      if cfg.dry_run then (true, [])
      else row_has_item_colorE env list_pos.1 list_pos.2 cfg
    let s3 := { s2 with trace := s2.trace ++ item.2 }
    if item.1 then
      let world_pos := positionFor origin cfg.per_row cfg.spacing_pixels s3.placed
      let s4 :=
        if cfg.dry_run then
          { s3 with trace := s3.trace ++
              [Event.printWould list_pos.1 list_pos.2 world_pos.1 world_pos.2] }
        else
          { s3 with trace := s3.trace ++
              [Event.moveTo list_pos.1 list_pos.2, Event.click,
               Event.moveTo world_pos.1 world_pos.2, Event.click] }
      { s4 with placed := s4.placed + 1, index := s4.index + 1 }
    else
      { s3 with
        trace := s3.trace ++ [Event.printSkip s3.index list_pos.1 list_pos.2]
        index := s3.index + 1 }

/-- The `while` condition (line 156): `cfg.limit is None or placed < cfg.limit`. -/
def loopCond (cfg : PlacementConfig) (s : IterState) : Bool :=
  match cfg.limit with
  | none => true
  | some l => decide (s.placed < l)

/-- The `while` loop of `place_objects`, run on fuel.  `none` = fuel exhausted
with the loop still running; `some s` = the loop condition became false in
state `s`. -/
def loopFuel (env : Env) (cfg : PlacementConfig)
    (list_start_x list_start_y vis : Int) (origin : Int × Int) :
    Nat → IterState → Option IterState
  | 0, s => if loopCond cfg s then none else some s
  | fuel + 1, s =>
    if loopCond cfg s then
      loopFuel env cfg list_start_x list_start_y vis origin fuel
        (loopBody env cfg list_start_x list_start_y vis origin s)
    else some s

/-- Initial loop state (lines 152-154). -/
def initState : IterState :=
  { scroll_rows_consumed := 0, placed := 0, index := 0, trace := [] }

/-- Resolution of the placement origin (line 147):
`cfg.placement_origin or pyautogui.position()`.  A configured tuple is always
truthy in Python (even `(0, 0)`), so only `None` falls back to the current
pointer position. -/
def resolveOrigin (env : Env) (cfg : PlacementConfig) : Int × Int :=
  match cfg.placement_origin with
  | some o => o
  | none => env.position

/-- Resolution of the screen height (line 149):
`cfg.screen_height or safe_screen_height()`.  Python `or` treats the int `0`
as falsy, so a configured height of `0` also falls back. -/
def resolveScreenHeight (env : Env) (cfg : PlacementConfig) : Int :=
  match cfg.screen_height with
  | some h => if h = 0 then safe_screen_height env else h
  | none => safe_screen_height env

/-- Outcome of one invocation of `place_objects` under the given fuel. -/
inductive RunOutcome where
  | anchorError : RunOutcome
  | running : RunOutcome
  | finished : IterState → RunOutcome
  deriving DecidableEq, Repr

/-- Embedding of `place_objects` (lines 134-197).  In dry-run the anchor is
the literal `Box(0, 0, 0, 0)` and `locate_anchor` is never consulted;
otherwise an anchor failure (`RuntimeError`) aborts before the loop. -/
def place_objects (env : Env) (cfg : PlacementConfig) (fuel : Nat) : RunOutcome :=
  let anchorOpt : Option Box :=
    if cfg.dry_run then some ⟨0, 0, 0, 0⟩ else locate_anchor env
  match anchorOpt with
  | none => RunOutcome.anchorError
  | some anchor =>
    let list_start_x := anchor.left + cfg.list_offset_x
    let list_start_y := anchor.top + cfg.list_offset_y
    let origin := resolveOrigin env cfg
    let screen_height := resolveScreenHeight env cfg
    let vis := visibleRows screen_height list_start_y cfg.row_height
    match loopFuel env cfg list_start_x list_start_y vis origin fuel initState with
    | none => RunOutcome.running
    | some s => RunOutcome.finished s

/-- The value the Python function returns to its caller: `place_objects` is
annotated `-> None` and its body contains no `return` statement, so every
normally-terminating run returns Python `None`, modelled as
`(none : Option Int)` (returning an integer `n` would be `some n`). -/
def place_objects_return (_env : Env) (_cfg : PlacementConfig) (_fuel : Nat) :
    Option Int :=
  none

/-- The final placed-count of a finished run, if any. -/
def finalPlaced (o : RunOutcome) : Option Int :=
  match o with
  | RunOutcome.finished s => some s.placed
  | _ => none

/-- A concrete environment in which every pyautogui call fails or reports
nothing: used to instantiate theorems at specific inputs. -/
def envNull : Env where
  templateExists := false
  locate := none
  position := (0, 0)
  screenSize := none
  pixelMatches := fun _ _ _ _ => none

/-- A concrete environment in which every pixel sample matches: used to
instantiate theorems at specific inputs. -/
def envMatch : Env where
  templateExists := true
  locate := some ⟨0, 0, 50, 20⟩
  position := (500, 500)
  screenSize := some 1080
  pixelMatches := fun _ _ _ _ => some true

/-- A concrete mid-run loop state used to instantiate theorems. -/
def stateW : IterState :=
  { scroll_rows_consumed := 2, placed := 1, index := 5, trace := [] }

/-- Recognizer for the dry-run trace line
`Would click list entry at ... and place at ...`. -/
def isPrintWould : Event → Bool
  | Event.printWould _ _ _ _ => true
  | _ => false

/-- A finished run whose whole trace consists of dry-run print lines (a
non-finished outcome carries no trace to inspect). -/
def tracePrintsOnly : RunOutcome → Bool
  | RunOutcome.finished s => s.trace.all isPrintWould
  | _ => true

/-- A concrete dry-run configuration with `limit = 5`, used to instantiate
theorems at specific inputs. -/
def cfgDry5 : PlacementConfig :=
  { dry_run := true, limit := some 5, screen_height := some 1080,
    placement_origin := some (100, 200) }

/-- A concrete configuration with a category color configured (all other
fields at their dataclass defaults), used to instantiate theorems. -/
def cfgCat : PlacementConfig :=
  { category_color := some (200, 180, 60) }

/-- A concrete state whose row in view equals the capacity 3 of a
118-pixel-tall screen, used to instantiate theorems. -/
def stateC10 : IterState :=
  { scroll_rows_consumed := 1, placed := 2, index := 4, trace := [] }

/-- An environment that agrees with `envNull` on pointer position and screen
size but differs in anchor location and pixel sampling, used to instantiate
dry-run independence theorems. -/
def envMatchSamePos : Env where
  templateExists := true
  locate := some ⟨5, 7, 30, 12⟩
  position := (0, 0)
  screenSize := none
  pixelMatches := fun _ _ _ _ => some true

/-! ### Structural lemmas about one loop iteration -/

theorem reconcile_index (cfg : PlacementConfig) (lsx lsy vis : Int) (s : IterState) :
    (reconcile cfg lsx lsy vis s).index = s.index := by
  unfold reconcile; split <;> rfl

theorem reconcile_placed (cfg : PlacementConfig) (lsx lsy vis : Int) (s : IterState) :
    (reconcile cfg lsx lsy vis s).placed = s.placed := by
  unfold reconcile; split <;> rfl

theorem reconcile_scroll_of_ge (cfg : PlacementConfig) (lsx lsy vis : Int)
    (s : IterState) (h : vis ≤ s.index - s.scroll_rows_consumed) :
    (reconcile cfg lsx lsy vis s).scroll_rows_consumed = s.index - vis + 1 := by
  unfold reconcile
  rw [if_pos h]
  show s.scroll_rows_consumed + (s.index - s.scroll_rows_consumed - vis + 1) = _
  ring

theorem reconcile_scroll_of_lt (cfg : PlacementConfig) (lsx lsy vis : Int)
    (s : IterState) (h : ¬ vis ≤ s.index - s.scroll_rows_consumed) :
    (reconcile cfg lsx lsy vis s).scroll_rows_consumed = s.scroll_rows_consumed := by
  unfold reconcile
  rw [if_neg h]

theorem reconcile_scroll_mono (cfg : PlacementConfig) (lsx lsy vis : Int)
    (s : IterState) :
    s.scroll_rows_consumed ≤ (reconcile cfg lsx lsy vis s).scroll_rows_consumed := by
  by_cases h : vis ≤ s.index - s.scroll_rows_consumed
  · rw [reconcile_scroll_of_ge cfg lsx lsy vis s h]; omega
  · rw [reconcile_scroll_of_lt cfg lsx lsy vis s h]

theorem rowInView_reconcile_of_ge (cfg : PlacementConfig) (lsx lsy vis : Int)
    (s : IterState) (h : vis ≤ s.index - s.scroll_rows_consumed) :
    rowInView (reconcile cfg lsx lsy vis s) = vis - 1 := by
  unfold rowInView
  rw [reconcile_index, reconcile_scroll_of_ge cfg lsx lsy vis s h]
  ring

theorem rowInView_reconcile_of_lt (cfg : PlacementConfig) (lsx lsy vis : Int)
    (s : IterState) (h : ¬ vis ≤ s.index - s.scroll_rows_consumed) :
    rowInView (reconcile cfg lsx lsy vis s) = rowInView s := by
  unfold rowInView
  rw [reconcile_index, reconcile_scroll_of_lt cfg lsx lsy vis s h]

theorem loopBody_index (env : Env) (cfg : PlacementConfig)
    (lsx lsy vis : Int) (origin : Int × Int) (s : IterState) :
    (loopBody env cfg lsx lsy vis origin s).index = s.index + 1 := by
  simp only [loopBody]
  split
  · simp [reconcile_index]
  · split
    · simp [reconcile_index]
    · split <;> simp [reconcile_index]

theorem loopBody_scroll (env : Env) (cfg : PlacementConfig)
    (lsx lsy vis : Int) (origin : Int × Int) (s : IterState) :
    (loopBody env cfg lsx lsy vis origin s).scroll_rows_consumed =
      (reconcile cfg lsx lsy vis s).scroll_rows_consumed := by
  simp only [loopBody]
  split
  · simp
  · split
    · simp
    · split <;> simp

theorem loopBody_placed_cases (env : Env) (cfg : PlacementConfig)
    (lsx lsy vis : Int) (origin : Int × Int) (s : IterState) :
    (loopBody env cfg lsx lsy vis origin s).placed = s.placed ∨
      (loopBody env cfg lsx lsy vis origin s).placed = s.placed + 1 := by
  simp only [loopBody]
  split
  · right; simp [reconcile_placed]
  · split
    · left; simp [reconcile_placed]
    · split
      · right; simp [reconcile_placed]
      · left; simp [reconcile_placed]

theorem is_category_rowE_match (env : Env) (lx ly : Int) (cfg : PlacementConfig)
    (c : RGB) (b : Bool) (hcc : cfg.category_color = some c)
    (h : env.pixelMatches (lx + cfg.category_icon_offset_x) ly c
      cfg.category_color_tolerance = some b) :
    is_category_rowE env lx ly cfg =
      (b, [Event.samplePixel (lx + cfg.category_icon_offset_x) ly]) := by
  unfold is_category_rowE
  rw [hcc]
  simp only [h]

theorem is_category_rowE_fail (env : Env) (lx ly : Int) (cfg : PlacementConfig)
    (c : RGB) (hcc : cfg.category_color = some c)
    (h : env.pixelMatches (lx + cfg.category_icon_offset_x) ly c
      cfg.category_color_tolerance = none) :
    is_category_rowE env lx ly cfg =
      (false, [Event.samplePixel (lx + cfg.category_icon_offset_x) ly]) := by
  unfold is_category_rowE
  rw [hcc]
  simp only [h]

theorem row_has_item_colorE_match (env : Env) (lx ly : Int) (cfg : PlacementConfig)
    (c : RGB) (b : Bool) (hic : cfg.item_color = some c)
    (hreq : cfg.require_item_color = true)
    (h : env.pixelMatches (lx + cfg.item_color_offset_x) (ly + cfg.item_color_offset_y)
      c cfg.item_color_tolerance = some b) :
    row_has_item_colorE env lx ly cfg =
      (b, [Event.samplePixel (lx + cfg.item_color_offset_x)
            (ly + cfg.item_color_offset_y)]) := by
  unfold row_has_item_colorE
  rw [hic]
  simp only [hreq, if_true, h]

theorem row_has_item_colorE_fail (env : Env) (lx ly : Int) (cfg : PlacementConfig)
    (c : RGB) (hic : cfg.item_color = some c)
    (hreq : cfg.require_item_color = true)
    (h : env.pixelMatches (lx + cfg.item_color_offset_x) (ly + cfg.item_color_offset_y)
      c cfg.item_color_tolerance = none) :
    row_has_item_colorE env lx ly cfg =
      (false, [Event.samplePixel (lx + cfg.item_color_offset_x)
            (ly + cfg.item_color_offset_y)]) := by
  unfold row_has_item_colorE
  rw [hic]
  simp only [hreq, if_true, h]

theorem loopBody_placed_dry (env : Env) (cfg : PlacementConfig)
    (lsx lsy vis : Int) (origin : Int × Int) (s : IterState)
    (hdry : cfg.dry_run = true) :
    (loopBody env cfg lsx lsy vis origin s).placed = s.placed + 1 := by
  simp only [loopBody, hdry]
  simp [reconcile_placed]

theorem loopBody_placed_valid (env : Env) (cfg : PlacementConfig)
    (lsx lsy vis : Int) (origin : Int × Int) (s : IterState)
    (hdry : cfg.dry_run = false)
    (hcat : is_category_row env lsx
      (lsy + rowInView (reconcile cfg lsx lsy vis s) * cfg.row_height) cfg = false)
    (hitem : row_has_item_color env lsx
      (lsy + rowInView (reconcile cfg lsx lsy vis s) * cfg.row_height) cfg = true) :
    (loopBody env cfg lsx lsy vis origin s).placed = s.placed + 1 := by
  unfold is_category_row at hcat
  unfold row_has_item_color at hitem
  simp only [loopBody, hdry]
  simp [hcat, hitem, reconcile_placed]

theorem loopBody_eq_category (env : Env) (cfg : PlacementConfig)
    (lsx lsy vis : Int) (origin : Int × Int) (s : IterState)
    (hdry : cfg.dry_run = false)
    (hcat : is_category_row env lsx
      (lsy + rowInView (reconcile cfg lsx lsy vis s) * cfg.row_height) cfg = true) :
    loopBody env cfg lsx lsy vis origin s =
      { reconcile cfg lsx lsy vis s with
        index := (reconcile cfg lsx lsy vis s).index + 1
        trace := (reconcile cfg lsx lsy vis s).trace ++
          (is_category_rowE env lsx
            (lsy + rowInView (reconcile cfg lsx lsy vis s) * cfg.row_height) cfg).2 } := by
  unfold is_category_row at hcat
  simp only [loopBody, hdry]
  simp [hcat]

theorem loopBody_placed_missing (env : Env) (cfg : PlacementConfig)
    (lsx lsy vis : Int) (origin : Int × Int) (s : IterState)
    (hdry : cfg.dry_run = false)
    (hcat : is_category_row env lsx
      (lsy + rowInView (reconcile cfg lsx lsy vis s) * cfg.row_height) cfg = false)
    (hitem : row_has_item_color env lsx
      (lsy + rowInView (reconcile cfg lsx lsy vis s) * cfg.row_height) cfg = false) :
    (loopBody env cfg lsx lsy vis origin s).placed = s.placed ∧
    (loopBody env cfg lsx lsy vis origin s).index = s.index + 1 := by
  unfold is_category_row at hcat
  unfold row_has_item_color at hitem
  simp only [loopBody, hdry]
  simp [hcat, hitem, reconcile_placed, reconcile_index]

theorem reconcile_trace_dry (cfg : PlacementConfig) (lsx lsy vis : Int)
    (s : IterState) (hdry : cfg.dry_run = true) :
    (reconcile cfg lsx lsy vis s).trace = s.trace := by
  unfold reconcile
  split <;> simp [hdry]

theorem loopBody_trace_dry (env : Env) (cfg : PlacementConfig)
    (lsx lsy vis : Int) (origin : Int × Int) (s : IterState)
    (hdry : cfg.dry_run = true) :
    (loopBody env cfg lsx lsy vis origin s).trace =
      s.trace ++
        [Event.printWould lsx
          (lsy + rowInView (reconcile cfg lsx lsy vis s) * cfg.row_height)
          (positionFor origin cfg.per_row cfg.spacing_pixels s.placed).1
          (positionFor origin cfg.per_row cfg.spacing_pixels s.placed).2] := by
  simp only [loopBody, hdry]
  simp [reconcile_trace_dry cfg lsx lsy vis s hdry,
    reconcile_placed cfg lsx lsy vis s]

theorem loopBody_dry_env (env env2 : Env) (cfg : PlacementConfig)
    (lsx lsy vis : Int) (origin : Int × Int) (s : IterState)
    (hdry : cfg.dry_run = true) :
    loopBody env cfg lsx lsy vis origin s = loopBody env2 cfg lsx lsy vis origin s := by
  simp only [loopBody, hdry]
  simp

theorem loopFuel_dry_env (env env2 : Env) (cfg : PlacementConfig)
    (lsx lsy vis : Int) (origin : Int × Int) (hdry : cfg.dry_run = true) :
    ∀ (fuel : Nat) (s : IterState),
      loopFuel env cfg lsx lsy vis origin fuel s =
        loopFuel env2 cfg lsx lsy vis origin fuel s := by
  intro fuel
  induction fuel with
  | zero => intro s; rfl
  | succ n ih =>
    intro s
    unfold loopFuel
    by_cases hc : loopCond cfg s
    · rw [if_pos hc, if_pos hc,
        loopBody_dry_env env env2 cfg lsx lsy vis origin s hdry]
      exact ih _
    · rw [if_neg hc, if_neg hc]

theorem loopFuel_dry_trace (env : Env) (cfg : PlacementConfig)
    (lsx lsy vis : Int) (origin : Int × Int) (hdry : cfg.dry_run = true) :
    ∀ (fuel : Nat) (s f : IterState),
      loopFuel env cfg lsx lsy vis origin fuel s = some f →
      s.trace.all isPrintWould = true → f.trace.all isPrintWould = true := by
  intro fuel
  induction fuel with
  | zero =>
    intro s f h hs
    unfold loopFuel at h
    by_cases hc : loopCond cfg s
    · rw [if_pos hc] at h; exact absurd h (by simp)
    · rw [if_neg hc] at h
      cases h
      exact hs
  | succ n ih =>
    intro s f h hs
    unfold loopFuel at h
    by_cases hc : loopCond cfg s
    · rw [if_pos hc] at h
      refine ih _ f h ?_
      rw [loopBody_trace_dry env cfg lsx lsy vis origin s hdry]
      simp [List.all_append, hs, isPrintWould]
    · rw [if_neg hc] at h
      cases h
      exact hs

theorem resolveOrigin_congr (env env2 : Env) (cfg : PlacementConfig)
    (hpos : env.position = env2.position) :
    resolveOrigin env cfg = resolveOrigin env2 cfg := by
  unfold resolveOrigin
  cases cfg.placement_origin <;> simp [hpos]

theorem resolveScreenHeight_congr (env env2 : Env) (cfg : PlacementConfig)
    (hsize : env.screenSize = env2.screenSize) :
    resolveScreenHeight env cfg = resolveScreenHeight env2 cfg := by
  unfold resolveScreenHeight safe_screen_height
  rw [hsize]

theorem place_objects_dry (env : Env) (cfg : PlacementConfig) (fuel : Nat)
    (hdry : cfg.dry_run = true) :
    place_objects env cfg fuel =
      (match loopFuel env cfg cfg.list_offset_x cfg.list_offset_y
          (visibleRows (resolveScreenHeight env cfg) cfg.list_offset_y cfg.row_height)
          (resolveOrigin env cfg) fuel initState with
        | none => RunOutcome.running
        | some s => RunOutcome.finished s) := by
  simp only [place_objects, hdry, if_true]
  norm_num

/-! ### Claim theorems -/

/-- C2: the placement planner (lines 178-183) maps the `placed` counter to
`(origin.x + (placed mod per_row) * spacing, origin.y + (placed div per_row) * spacing)`;
with `per_row ≥ 1` the column `placed mod per_row` lies in `[0, per_row)`;
with `spacing > 0` distinct placed-counts yield distinct positions; and
Scenario A: `per_row = 15`, `spacing = 120`, `origin = (0,0)`, `placed = 16`
gives `(120, 120)`. -/
theorem C2_placement_planner (origin : Int × Int) (per_row spacing p q : Int)
    (hper : 1 ≤ per_row) (hsp : 0 < spacing) (_hp : 0 ≤ p) (_hq : 0 ≤ q) :
    positionFor origin per_row spacing p =
      (origin.1 + Int.fmod p per_row * spacing,
       origin.2 + Int.fdiv p per_row * spacing) ∧
    0 ≤ Int.fmod p per_row ∧ Int.fmod p per_row < per_row ∧
    (positionFor origin per_row spacing p = positionFor origin per_row spacing q →
      p = q) ∧
    positionFor (0, 0) 15 120 16 = (120, 120) := by
  have hb0 : (0 : Int) ≤ per_row := by omega
  have hbne : per_row ≠ 0 := by omega
  refine ⟨rfl, ?_, ?_, ?_, by decide⟩
  · rw [Int.fmod_eq_emod p hb0]
    exact Int.emod_nonneg p hbne
  · rw [Int.fmod_eq_emod p hb0]
    exact Int.emod_lt_of_pos p (by omega)
  · intro h
    have h1 : origin.1 + Int.fmod p per_row * spacing =
        origin.1 + Int.fmod q per_row * spacing := congrArg Prod.fst h
    have h2 : origin.2 + Int.fdiv p per_row * spacing =
        origin.2 + Int.fdiv q per_row * spacing := congrArg Prod.snd h
    have hm : Int.fmod p per_row = Int.fmod q per_row :=
      mul_right_cancel₀ (ne_of_gt hsp) (by linarith)
    have hd : Int.fdiv p per_row = Int.fdiv q per_row :=
      mul_right_cancel₀ (ne_of_gt hsp) (by linarith)
    calc p = Int.fmod p per_row + per_row * Int.fdiv p per_row :=
          (Int.fmod_add_fdiv p per_row).symm
      _ = Int.fmod q per_row + per_row * Int.fdiv q per_row := by rw [hm, hd]
      _ = q := Int.fmod_add_fdiv q per_row

/-- Witness for C2 at `origin = (3, 4)`, `per_row = 15`, `spacing = 120`,
`p = 16`, `q = 31`. -/
theorem C2_placement_planner_witness :
    (1 : Int) ≤ 15 ∧ (0 : Int) < 120 ∧ (0 : Int) ≤ 16 ∧ (0 : Int) ≤ 31 ∧
    (positionFor (3, 4) 15 120 16 =
      ((3 : Int) + Int.fmod 16 15 * 120, (4 : Int) + Int.fdiv 16 15 * 120) ∧
    0 ≤ Int.fmod (16 : Int) 15 ∧ Int.fmod (16 : Int) 15 < 15 ∧
    (positionFor (3, 4) 15 120 16 = positionFor (3, 4) 15 120 31 → (16 : Int) = 31) ∧
    positionFor (0, 0) 15 120 16 = (120, 120)) :=
  ⟨by norm_num, by norm_num, by norm_num, by norm_num,
    C2_placement_planner (3, 4) 15 120 16 31 (by norm_num) (by norm_num)
      (by norm_num) (by norm_num)⟩

/-- C1: at every loop iteration, after the scroll-reconciliation step
(lines 157-165) and before the row is classified or clicked, the row in view
equals the logical index minus the consumed scroll, lies in
`[0, visible_rows)` where `visible_rows = max 1 ((screen_height - list_start_y) // row_height) ≥ 1`,
and the consumed scroll is monotonically non-decreasing: it never decreases
within the reconciliation step nor across a whole loop iteration, and the
hypothesis `scroll_rows_consumed ≤ index` under which this holds is itself
established by the initial state and preserved by every iteration. -/
theorem C1_iteration_state_invariant (env : Env) (cfg : PlacementConfig)
    (lsx lsy sh : Int) (origin : Int × Int) (s : IterState)
    (hInv : s.scroll_rows_consumed ≤ s.index) :
    rowInView (reconcile cfg lsx lsy (visibleRows sh lsy cfg.row_height) s) =
      (reconcile cfg lsx lsy (visibleRows sh lsy cfg.row_height) s).index -
        (reconcile cfg lsx lsy (visibleRows sh lsy cfg.row_height) s).scroll_rows_consumed ∧
    0 ≤ rowInView (reconcile cfg lsx lsy (visibleRows sh lsy cfg.row_height) s) ∧
    rowInView (reconcile cfg lsx lsy (visibleRows sh lsy cfg.row_height) s) <
      visibleRows sh lsy cfg.row_height ∧
    1 ≤ visibleRows sh lsy cfg.row_height ∧
    s.scroll_rows_consumed ≤
      (reconcile cfg lsx lsy (visibleRows sh lsy cfg.row_height) s).scroll_rows_consumed ∧
    s.scroll_rows_consumed ≤
      (loopBody env cfg lsx lsy (visibleRows sh lsy cfg.row_height) origin s).scroll_rows_consumed ∧
    (loopBody env cfg lsx lsy (visibleRows sh lsy cfg.row_height) origin s).scroll_rows_consumed ≤
      (loopBody env cfg lsx lsy (visibleRows sh lsy cfg.row_height) origin s).index ∧
    initState.scroll_rows_consumed ≤ initState.index := by
  set vis := visibleRows sh lsy cfg.row_height with hvis
  have hv1 : (1 : Int) ≤ vis := le_max_left 1 _
  have hscr : s.scroll_rows_consumed ≤ (reconcile cfg lsx lsy vis s).scroll_rows_consumed :=
    reconcile_scroll_mono cfg lsx lsy vis s
  refine ⟨rfl, ?_, ?_, hv1, hscr, ?_, ?_, by decide⟩
  · by_cases hb : vis ≤ s.index - s.scroll_rows_consumed
    · rw [rowInView_reconcile_of_ge cfg lsx lsy vis s hb]; omega
    · rw [rowInView_reconcile_of_lt cfg lsx lsy vis s hb]
      unfold rowInView; omega
  · by_cases hb : vis ≤ s.index - s.scroll_rows_consumed
    · rw [rowInView_reconcile_of_ge cfg lsx lsy vis s hb]; omega
    · rw [rowInView_reconcile_of_lt cfg lsx lsy vis s hb]
      unfold rowInView; omega
  · rw [loopBody_scroll]; exact hscr
  · rw [loopBody_scroll, loopBody_index]
    by_cases hb : vis ≤ s.index - s.scroll_rows_consumed
    · rw [reconcile_scroll_of_ge cfg lsx lsy vis s hb]; omega
    · rw [reconcile_scroll_of_lt cfg lsx lsy vis s hb]; omega

/-- Witness for C1 at a concrete environment, configuration and state. -/
theorem C1_iteration_state_invariant_witness :
    stateW.scroll_rows_consumed ≤ stateW.index ∧
    (rowInView (reconcile {} 10 40 (visibleRows 118 40 26) stateW) =
      (reconcile {} 10 40 (visibleRows 118 40 26) stateW).index -
        (reconcile {} 10 40 (visibleRows 118 40 26) stateW).scroll_rows_consumed ∧
    0 ≤ rowInView (reconcile {} 10 40 (visibleRows 118 40 26) stateW) ∧
    rowInView (reconcile {} 10 40 (visibleRows 118 40 26) stateW) <
      visibleRows 118 40 26 ∧
    1 ≤ visibleRows 118 40 26 ∧
    stateW.scroll_rows_consumed ≤
      (reconcile {} 10 40 (visibleRows 118 40 26) stateW).scroll_rows_consumed ∧
    stateW.scroll_rows_consumed ≤
      (loopBody envNull {} 10 40 (visibleRows 118 40 26) (0, 0) stateW).scroll_rows_consumed ∧
    (loopBody envNull {} 10 40 (visibleRows 118 40 26) (0, 0) stateW).scroll_rows_consumed ≤
      (loopBody envNull {} 10 40 (visibleRows 118 40 26) (0, 0) stateW).index ∧
    initState.scroll_rows_consumed ≤ initState.index) :=
  ⟨by decide, C1_iteration_state_invariant envNull {} 10 40 118 (0, 0) stateW (by decide)⟩

theorem loopBody_placed_of_valid (env : Env) (cfg : PlacementConfig)
    (lsx lsy vis : Int) (origin : Int × Int) (s : IterState)
    (hvalid : cfg.dry_run = true ∨ (cfg.dry_run = false ∧
      ∀ x y, is_category_row env x y cfg = false ∧ row_has_item_color env x y cfg = true)) :
    (loopBody env cfg lsx lsy vis origin s).placed = s.placed + 1 := by
  rcases hvalid with hdry | ⟨hdry, hall⟩
  · exact loopBody_placed_dry env cfg lsx lsy vis origin s hdry
  · exact loopBody_placed_valid env cfg lsx lsy vis origin s hdry
      (hall _ _).1 (hall _ _).2

theorem loopFuel_valid_terminates (env : Env) (cfg : PlacementConfig)
    (lsx lsy vis : Int) (origin : Int × Int) (L : Int)
    (hlim : cfg.limit = some L)
    (hvalid : cfg.dry_run = true ∨ (cfg.dry_run = false ∧
      ∀ x y, is_category_row env x y cfg = false ∧ row_has_item_color env x y cfg = true)) :
    ∀ (n : Nat) (s : IterState), s.placed + (n : Int) = L →
      ∃ f, loopFuel env cfg lsx lsy vis origin n s = some f ∧ f.placed = L := by
  intro n
  induction n with
  | zero =>
    intro s hs
    have hc : loopCond cfg s = false := by
      unfold loopCond
      rw [hlim]
      simp only [decide_eq_false_iff_not, not_lt]
      omega
    refine ⟨s, ?_, by push_cast at hs; omega⟩
    unfold loopFuel
    rw [hc]
    simp
  | succ n ih =>
    intro s hs
    have hc : loopCond cfg s = true := by
      unfold loopCond
      rw [hlim]
      simp only [decide_eq_true_eq]
      push_cast at hs
      omega
    have hb := loopBody_placed_of_valid env cfg lsx lsy vis origin s hvalid
    unfold loopFuel
    rw [hc]
    simp only [if_true]
    refine ih _ ?_
    rw [hb]
    push_cast at hs ⊢
    omega

/-- C3: with a configured limit `L ≥ 0` and rows that repeatedly classify as
Valid (in particular in dry-run, where every row is Valid), the loop of
`place_objects` terminates with exactly `L` placements: fuel `L` suffices for
the loop to end with `placed = L`.  Rows classified as category or as missing
the item color never increase the placed-count. -/
theorem C3_limit_termination (env : Env) (cfg : PlacementConfig)
    (lsx lsy vis : Int) (origin : Int × Int) (L : Int) (s : IterState)
    (hlim : cfg.limit = some L) (hL : 0 ≤ L)
    (hvalid : cfg.dry_run = true ∨ (cfg.dry_run = false ∧
      ∀ x y, is_category_row env x y cfg = false ∧ row_has_item_color env x y cfg = true)) :
    (∃ f, loopFuel env cfg lsx lsy vis origin L.toNat initState = some f ∧
      f.placed = L) ∧
    (cfg.dry_run = false →
      is_category_row env lsx
        (lsy + rowInView (reconcile cfg lsx lsy vis s) * cfg.row_height) cfg = true →
      (loopBody env cfg lsx lsy vis origin s).placed = s.placed) ∧
    (cfg.dry_run = false →
      is_category_row env lsx
        (lsy + rowInView (reconcile cfg lsx lsy vis s) * cfg.row_height) cfg = false →
      row_has_item_color env lsx
        (lsy + rowInView (reconcile cfg lsx lsy vis s) * cfg.row_height) cfg = false →
      (loopBody env cfg lsx lsy vis origin s).placed = s.placed) := by
  refine ⟨?_, ?_, ?_⟩
  · refine loopFuel_valid_terminates env cfg lsx lsy vis origin L hlim hvalid
      L.toNat initState ?_
    show (0 : Int) + (L.toNat : Int) = L
    omega
  · intro hdry hcat
    rw [loopBody_eq_category env cfg lsx lsy vis origin s hdry hcat]
    exact reconcile_placed cfg lsx lsy vis s
  · intro hdry hcat hitem
    exact (loopBody_placed_missing env cfg lsx lsy vis origin s hdry hcat hitem).1

/-- C4: when the category-icon pixel of the current row matches the
configured category color, the iteration step only advances the logical index
by one: the placed-count is unchanged, the only event emitted after scroll
reconciliation is the single category pixel sample (no click, no mouse move,
and the item-color pixel is never sampled), and this holds for every
item-color configuration, which is left completely unconstrained. -/
theorem C4_category_short_circuit (env : Env) (cfg : PlacementConfig)
    (lsx lsy vis : Int) (origin : Int × Int) (s : IterState) (c : RGB)
    (hdry : cfg.dry_run = false)
    (hcc : cfg.category_color = some c)
    (hmatch : env.pixelMatches (lsx + cfg.category_icon_offset_x)
      (lsy + rowInView (reconcile cfg lsx lsy vis s) * cfg.row_height) c
      cfg.category_color_tolerance = some true) :
    loopBody env cfg lsx lsy vis origin s =
      { reconcile cfg lsx lsy vis s with
        index := (reconcile cfg lsx lsy vis s).index + 1
        trace := (reconcile cfg lsx lsy vis s).trace ++
          [Event.samplePixel (lsx + cfg.category_icon_offset_x)
            (lsy + rowInView (reconcile cfg lsx lsy vis s) * cfg.row_height)] } ∧
    (loopBody env cfg lsx lsy vis origin s).index = s.index + 1 ∧
    (loopBody env cfg lsx lsy vis origin s).placed = s.placed := by
  have hE := is_category_rowE_match env lsx
    (lsy + rowInView (reconcile cfg lsx lsy vis s) * cfg.row_height) cfg c true hcc hmatch
  have hcat : is_category_row env lsx
      (lsy + rowInView (reconcile cfg lsx lsy vis s) * cfg.row_height) cfg = true := by
    unfold is_category_row
    rw [hE]
  have h := loopBody_eq_category env cfg lsx lsy vis origin s hdry hcat
  refine ⟨?_, loopBody_index env cfg lsx lsy vis origin s, ?_⟩
  · rw [h, hE]
  · rw [h]
    exact reconcile_placed cfg lsx lsy vis s

/-- C5: a pixel-sampling exception (modelled by `pixelMatches = none`) inside
`is_category_row` or `row_has_item_color` yields a non-match result, and both
classifier functions are total in the model, so no exception propagates.
Moreover, when every sample fails and the item-color check is mandatory, the
engine skips the row: the placed-count is unchanged and the index advances by
one. -/
theorem C5_sampling_fails_closed (env : Env) (cfg : PlacementConfig)
    (lx ly : Int) (c ci : RGB)
    (hcc : cfg.category_color = some c)
    (hcfail : env.pixelMatches (lx + cfg.category_icon_offset_x) ly c
      cfg.category_color_tolerance = none)
    (hic : cfg.item_color = some ci)
    (hreq : cfg.require_item_color = true)
    (hifail : env.pixelMatches (lx + cfg.item_color_offset_x)
      (ly + cfg.item_color_offset_y) ci cfg.item_color_tolerance = none) :
    is_category_row env lx ly cfg = false ∧
    row_has_item_color env lx ly cfg = false ∧
    (∀ (envF : Env) (lsx lsy vis : Int) (origin : Int × Int) (s : IterState),
      (∀ x y rgbv tolv, envF.pixelMatches x y rgbv tolv = none) →
      cfg.dry_run = false →
      (loopBody envF cfg lsx lsy vis origin s).placed = s.placed ∧
      (loopBody envF cfg lsx lsy vis origin s).index = s.index + 1) := by
  refine ⟨?_, ?_, ?_⟩
  · unfold is_category_row
    rw [is_category_rowE_fail env lx ly cfg c hcc hcfail]
  · unfold row_has_item_color
    rw [row_has_item_colorE_fail env lx ly cfg ci hic hreq hifail]
  · intro envF lsx lsy vis origin s hall hdry
    have hcatF : is_category_row envF lsx
        (lsy + rowInView (reconcile cfg lsx lsy vis s) * cfg.row_height) cfg = false := by
      unfold is_category_row
      rw [is_category_rowE_fail envF _ _ cfg c hcc (hall _ _ _ _)]
    have hitemF : row_has_item_color envF lsx
        (lsy + rowInView (reconcile cfg lsx lsy vis s) * cfg.row_height) cfg = false := by
      unfold row_has_item_color
      rw [row_has_item_colorE_fail envF _ _ cfg ci hic hreq (hall _ _ _ _)]
    exact loopBody_placed_missing envF cfg lsx lsy vis origin s hdry hcatF hitemF

/-- C6: Scenario B — with `row_height = 26`, `list_start_y = 40`,
`screen_height = 1080`, the visible capacity is `(1080 - 40) // 26 = 40`; at
logical index 40 with no scroll consumed, the reconciliation step issues
exactly one scroll command of magnitude `-scroll_clicks_per_row * 1` at the
list position, after which `scroll_rows_consumed = 1` and the row in view
is 39. -/
theorem C6_viewport_capacity_scroll_step (cfg : PlacementConfig)
    (lsx p : Int) (tr : List Event)
    (hdry : cfg.dry_run = false) (hrh : cfg.row_height = 26) :
    visibleRows 1080 40 cfg.row_height = 40 ∧
    (reconcile cfg lsx 40 (visibleRows 1080 40 cfg.row_height)
      { scroll_rows_consumed := 0, placed := p, index := 40, trace := tr }).trace =
      tr ++ [Event.scroll (-cfg.scroll_clicks_per_row * 1) lsx 40] ∧
    (reconcile cfg lsx 40 (visibleRows 1080 40 cfg.row_height)
      { scroll_rows_consumed := 0, placed := p, index := 40,
        trace := tr }).scroll_rows_consumed = 1 ∧
    rowInView (reconcile cfg lsx 40 (visibleRows 1080 40 cfg.row_height)
      { scroll_rows_consumed := 0, placed := p, index := 40, trace := tr }) = 39 := by
  rw [hrh]
  have hv : visibleRows 1080 40 26 = 40 := by decide
  rw [hv]
  refine ⟨rfl, ?_, ?_, ?_⟩
  · unfold reconcile
    rw [if_pos (by norm_num : (40 : Int) ≤
      ({ scroll_rows_consumed := 0, placed := p, index := 40, trace := tr } :
        IterState).index -
      ({ scroll_rows_consumed := 0, placed := p, index := 40, trace := tr } :
        IterState).scroll_rows_consumed)]
    simp [hdry]
  · unfold reconcile
    rw [if_pos (by norm_num : (40 : Int) ≤
      ({ scroll_rows_consumed := 0, placed := p, index := 40, trace := tr } :
        IterState).index -
      ({ scroll_rows_consumed := 0, placed := p, index := 40, trace := tr } :
        IterState).scroll_rows_consumed)]
    norm_num
  · unfold rowInView reconcile
    rw [if_pos (by norm_num : (40 : Int) ≤
      ({ scroll_rows_consumed := 0, placed := p, index := 40, trace := tr } :
        IterState).index -
      ({ scroll_rows_consumed := 0, placed := p, index := 40, trace := tr } :
        IterState).scroll_rows_consumed)]
    norm_num

/-- C7: in dry-run mode `place_objects` never aborts on the anchor (no real
anchor is needed), every event of a finished run's trace is a printed
`Would click ... and place at ...` line (so no pixel sample, no mouse move,
no click and no scroll is ever issued), and the outcome is independent of the
anchor-location and pixel-sampling parts of the environment (any two
environments agreeing only on pointer position and screen size give the same
outcome). -/
theorem C7_dry_run_isolation (env env2 : Env) (cfg : PlacementConfig) (fuel : Nat)
    (hdry : cfg.dry_run = true)
    (hpos : env.position = env2.position)
    (hsize : env.screenSize = env2.screenSize) :
    place_objects env cfg fuel ≠ RunOutcome.anchorError ∧
    tracePrintsOnly (place_objects env cfg fuel) = true ∧
    place_objects env2 cfg fuel = place_objects env cfg fuel := by
  have hd := place_objects_dry env cfg fuel hdry
  have hd2 := place_objects_dry env2 cfg fuel hdry
  refine ⟨?_, ?_, ?_⟩
  · rw [hd]
    cases hl : loopFuel env cfg cfg.list_offset_x cfg.list_offset_y
        (visibleRows (resolveScreenHeight env cfg) cfg.list_offset_y cfg.row_height)
        (resolveOrigin env cfg) fuel initState <;> simp [hl]
  · rw [hd]
    cases hl : loopFuel env cfg cfg.list_offset_x cfg.list_offset_y
        (visibleRows (resolveScreenHeight env cfg) cfg.list_offset_y cfg.row_height)
        (resolveOrigin env cfg) fuel initState with
    | none => simp [tracePrintsOnly]
    | some f =>
      simp only [tracePrintsOnly]
      exact loopFuel_dry_trace env cfg cfg.list_offset_x cfg.list_offset_y
        (visibleRows (resolveScreenHeight env cfg) cfg.list_offset_y cfg.row_height)
        (resolveOrigin env cfg) hdry fuel initState f hl (by simp [initState])
  · rw [hd, hd2,
      resolveOrigin_congr env2 env cfg hpos.symm,
      resolveScreenHeight_congr env2 env cfg hsize.symm,
      loopFuel_dry_env env2 env cfg cfg.list_offset_x cfg.list_offset_y
        (visibleRows (resolveScreenHeight env cfg) cfg.list_offset_y cfg.row_height)
        (resolveOrigin env cfg) hdry fuel initState]

/-- C9: dry-run runs are deterministic — two executions with the same
configuration, the same resolved placement origin and the same resolved
screen height produce the same outcome, hence an identical event trace
(printed lines) and an identical final placed-count. -/
theorem C9_dry_run_determinism (env env2 : Env) (cfg : PlacementConfig) (fuel : Nat)
    (hdry : cfg.dry_run = true)
    (horigin : resolveOrigin env cfg = resolveOrigin env2 cfg)
    (hsh : resolveScreenHeight env cfg = resolveScreenHeight env2 cfg) :
    place_objects env cfg fuel = place_objects env2 cfg fuel ∧
    finalPlaced (place_objects env cfg fuel) =
      finalPlaced (place_objects env2 cfg fuel) := by
  have h : place_objects env cfg fuel = place_objects env2 cfg fuel := by
    rw [place_objects_dry env cfg fuel hdry, place_objects_dry env2 cfg fuel hdry,
      horigin, hsh,
      loopFuel_dry_env env env2 cfg cfg.list_offset_x cfg.list_offset_y
        (visibleRows (resolveScreenHeight env2 cfg) cfg.list_offset_y cfg.row_height)
        (resolveOrigin env2 cfg) hdry fuel initState]
  exact ⟨h, by rw [h]⟩

/-- C10: whenever the scroll branch is actually taken the row in view equals
the capacity exactly, so `rows_to_scroll = 1`: the consumed scroll increases
by exactly one and the single scroll command has magnitude exactly
`-scroll_clicks_per_row * 1`.  The upper bound `rowInView ≤ capacity` under
which this holds is a run invariant: it holds in the initial state and is
re-established by every loop iteration, for any state. -/
theorem C10_scroll_moves_exactly_one_row (env : Env) (cfg : PlacementConfig)
    (lsx lsy sh : Int) (origin : Int × Int) (s s2 : IterState)
    (hdry : cfg.dry_run = false)
    (hub : rowInView s ≤ visibleRows sh lsy cfg.row_height)
    (hge : visibleRows sh lsy cfg.row_height ≤ rowInView s) :
    (reconcile cfg lsx lsy (visibleRows sh lsy cfg.row_height) s).scroll_rows_consumed =
      s.scroll_rows_consumed + 1 ∧
    (reconcile cfg lsx lsy (visibleRows sh lsy cfg.row_height) s).trace =
      s.trace ++ [Event.scroll (-cfg.scroll_clicks_per_row * 1) lsx lsy] ∧
    rowInView initState ≤ visibleRows sh lsy cfg.row_height ∧
    rowInView (loopBody env cfg lsx lsy (visibleRows sh lsy cfg.row_height) origin s2) ≤
      visibleRows sh lsy cfg.row_height := by
  set vis := visibleRows sh lsy cfg.row_height with hvis
  have hv1 : (1 : Int) ≤ vis := le_max_left 1 _
  have hcond : vis ≤ s.index - s.scroll_rows_consumed := hge
  have hriv : s.index - s.scroll_rows_consumed = vis := by
    unfold rowInView at hub hge
    omega
  refine ⟨?_, ?_, ?_, ?_⟩
  · rw [reconcile_scroll_of_ge cfg lsx lsy vis s hcond]
    omega
  · unfold reconcile
    rw [if_pos hcond, hriv]
    simp [hdry]
  · have h0 : rowInView initState = 0 := rfl
    rw [h0]
    omega
  · unfold rowInView
    rw [loopBody_index, loopBody_scroll]
    by_cases hb : vis ≤ s2.index - s2.scroll_rows_consumed
    · rw [reconcile_scroll_of_ge cfg lsx lsy vis s2 hb]
      omega
    · rw [reconcile_scroll_of_lt cfg lsx lsy vis s2 hb]
      omega

/-- C8 counterexample: a concrete dry-run with `limit = 5` and fuel 5
finishes with a final placed-count of 5, while the value `place_objects`
returns to its caller is Python `None` (the function is annotated `-> None`
and has no `return` statement) — not the placed-count. -/
theorem C8_counterexample :
    finalPlaced (place_objects envNull cfgDry5 5) = some 5 ∧
    place_objects_return envNull cfgDry5 5 = none ∧
    place_objects_return envNull cfgDry5 5 ≠ finalPlaced (place_objects envNull cfgDry5 5) := by
  refine ⟨by decide, rfl, ?_⟩
  intro h
  rw [show place_objects_return envNull cfgDry5 5 = none from rfl,
    show finalPlaced (place_objects envNull cfgDry5 5) = some 5 from by decide] at h
  cases h

/-- C8 amended: `place_objects` tracks the placed-count in a local loop
variable but returns `None` on every run; the count is not returned to the
caller (and `main` ignores the call's value, returning only an exit code). -/
theorem C8_run_returns_none (env : Env) (cfg : PlacementConfig) (fuel : Nat) :
    place_objects_return env cfg fuel = none := rfl

/-- Witness for C3 at the concrete dry-run configuration with limit 5. -/
theorem C3_limit_termination_witness :
    cfgDry5.limit = some 5 ∧ (0 : Int) ≤ 5 ∧ cfgDry5.dry_run = true ∧
    ((∃ f, loopFuel envNull cfgDry5 10 40 40 (100, 200) (5 : Int).toNat initState =
        some f ∧ f.placed = 5) ∧
    (cfgDry5.dry_run = false →
      is_category_row envNull 10
        (40 + rowInView (reconcile cfgDry5 10 40 40 stateW) * cfgDry5.row_height)
        cfgDry5 = true →
      (loopBody envNull cfgDry5 10 40 40 (100, 200) stateW).placed = stateW.placed) ∧
    (cfgDry5.dry_run = false →
      is_category_row envNull 10
        (40 + rowInView (reconcile cfgDry5 10 40 40 stateW) * cfgDry5.row_height)
        cfgDry5 = false →
      row_has_item_color envNull 10
        (40 + rowInView (reconcile cfgDry5 10 40 40 stateW) * cfgDry5.row_height)
        cfgDry5 = false →
      (loopBody envNull cfgDry5 10 40 40 (100, 200) stateW).placed = stateW.placed)) :=
  ⟨rfl, by norm_num, rfl,
    C3_limit_termination envNull cfgDry5 10 40 40 (100, 200) 5 stateW rfl
      (by norm_num) (Or.inl rfl)⟩

/-- Witness for C4 at a configuration with a matching category color. -/
theorem C4_category_short_circuit_witness :
    cfgCat.dry_run = false ∧ cfgCat.category_color = some (200, 180, 60) ∧
    envMatch.pixelMatches (10 + cfgCat.category_icon_offset_x)
      (40 + rowInView (reconcile cfgCat 10 40 4 stateW) * cfgCat.row_height)
      (200, 180, 60) cfgCat.category_color_tolerance = some true ∧
    (loopBody envMatch cfgCat 10 40 4 (0, 0) stateW =
      { reconcile cfgCat 10 40 4 stateW with
        index := (reconcile cfgCat 10 40 4 stateW).index + 1
        trace := (reconcile cfgCat 10 40 4 stateW).trace ++
          [Event.samplePixel (10 + cfgCat.category_icon_offset_x)
            (40 + rowInView (reconcile cfgCat 10 40 4 stateW) * cfgCat.row_height)] } ∧
    (loopBody envMatch cfgCat 10 40 4 (0, 0) stateW).index = stateW.index + 1 ∧
    (loopBody envMatch cfgCat 10 40 4 (0, 0) stateW).placed = stateW.placed) :=
  ⟨rfl, rfl, rfl,
    C4_category_short_circuit envMatch cfgCat 10 40 4 (0, 0) stateW (200, 180, 60)
      rfl rfl rfl⟩

/-- Witness for C5 in an environment where every pixel sample fails. -/
theorem C5_sampling_fails_closed_witness :
    cfgCat.category_color = some (200, 180, 60) ∧
    envNull.pixelMatches (100 + cfgCat.category_icon_offset_x) 50 (200, 180, 60)
      cfgCat.category_color_tolerance = none ∧
    cfgCat.item_color = some (142, 125, 18) ∧
    cfgCat.require_item_color = true ∧
    envNull.pixelMatches (100 + cfgCat.item_color_offset_x)
      (50 + cfgCat.item_color_offset_y) (142, 125, 18)
      cfgCat.item_color_tolerance = none ∧
    (is_category_row envNull 100 50 cfgCat = false ∧
    row_has_item_color envNull 100 50 cfgCat = false ∧
    (∀ (envF : Env) (lsx lsy vis : Int) (origin : Int × Int) (s : IterState),
      (∀ x y rgbv tolv, envF.pixelMatches x y rgbv tolv = none) →
      cfgCat.dry_run = false →
      (loopBody envF cfgCat lsx lsy vis origin s).placed = s.placed ∧
      (loopBody envF cfgCat lsx lsy vis origin s).index = s.index + 1)) :=
  ⟨rfl, rfl, rfl, rfl, rfl,
    C5_sampling_fails_closed envNull cfgCat 100 50 (200, 180, 60) (142, 125, 18)
      rfl rfl rfl rfl rfl⟩

/-- Witness for C6 at the default configuration. -/
theorem C6_viewport_capacity_scroll_step_witness :
    ({} : PlacementConfig).dry_run = false ∧
    ({} : PlacementConfig).row_height = 26 ∧
    (visibleRows 1080 40 ({} : PlacementConfig).row_height = 40 ∧
    (reconcile {} 10 40 (visibleRows 1080 40 ({} : PlacementConfig).row_height)
      { scroll_rows_consumed := 0, placed := 0, index := 40, trace := [] }).trace =
      [] ++ [Event.scroll (-({} : PlacementConfig).scroll_clicks_per_row * 1) 10 40] ∧
    (reconcile {} 10 40 (visibleRows 1080 40 ({} : PlacementConfig).row_height)
      { scroll_rows_consumed := 0, placed := 0, index := 40,
        trace := [] }).scroll_rows_consumed = 1 ∧
    rowInView (reconcile {} 10 40 (visibleRows 1080 40 ({} : PlacementConfig).row_height)
      { scroll_rows_consumed := 0, placed := 0, index := 40, trace := [] }) = 39) :=
  ⟨rfl, rfl, C6_viewport_capacity_scroll_step {} 10 0 [] rfl rfl⟩

/-- Witness for C7: two environments agreeing on pointer position and screen
size but with different anchors and pixel samplers. -/
theorem C7_dry_run_isolation_witness :
    cfgDry5.dry_run = true ∧
    envNull.position = envMatchSamePos.position ∧
    envNull.screenSize = envMatchSamePos.screenSize ∧
    (place_objects envNull cfgDry5 7 ≠ RunOutcome.anchorError ∧
    tracePrintsOnly (place_objects envNull cfgDry5 7) = true ∧
    place_objects envMatchSamePos cfgDry5 7 = place_objects envNull cfgDry5 7) :=
  ⟨rfl, rfl, rfl, C7_dry_run_isolation envNull envMatchSamePos cfgDry5 7 rfl rfl rfl⟩

/-- Witness for C9 at the concrete dry-run configuration with limit 5. -/
theorem C9_dry_run_determinism_witness :
    cfgDry5.dry_run = true ∧
    resolveOrigin envNull cfgDry5 = resolveOrigin envMatchSamePos cfgDry5 ∧
    resolveScreenHeight envNull cfgDry5 = resolveScreenHeight envMatchSamePos cfgDry5 ∧
    (place_objects envNull cfgDry5 6 = place_objects envMatchSamePos cfgDry5 6 ∧
    finalPlaced (place_objects envNull cfgDry5 6) =
      finalPlaced (place_objects envMatchSamePos cfgDry5 6)) :=
  ⟨rfl, rfl, by decide,
    C9_dry_run_determinism envNull envMatchSamePos cfgDry5 6 rfl rfl (by decide)⟩

/-- Witness for C10 at a state whose row in view equals the capacity. -/
theorem C10_scroll_moves_exactly_one_row_witness :
    ({} : PlacementConfig).dry_run = false ∧
    rowInView stateC10 ≤ visibleRows 118 40 ({} : PlacementConfig).row_height ∧
    visibleRows 118 40 ({} : PlacementConfig).row_height ≤ rowInView stateC10 ∧
    ((reconcile {} 10 40 (visibleRows 118 40 ({} : PlacementConfig).row_height)
        stateC10).scroll_rows_consumed = stateC10.scroll_rows_consumed + 1 ∧
    (reconcile {} 10 40 (visibleRows 118 40 ({} : PlacementConfig).row_height)
        stateC10).trace =
      stateC10.trace ++
        [Event.scroll (-({} : PlacementConfig).scroll_clicks_per_row * 1) 10 40] ∧
    rowInView initState ≤ visibleRows 118 40 ({} : PlacementConfig).row_height ∧
    rowInView (loopBody envNull {} 10 40
        (visibleRows 118 40 ({} : PlacementConfig).row_height) (0, 0) stateW) ≤
      visibleRows 118 40 ({} : PlacementConfig).row_height) :=
  ⟨rfl, by decide, by decide,
    C10_scroll_moves_exactly_one_row envNull {} 10 40 118 (0, 0) stateC10 stateW
      rfl (by decide) (by decide)⟩
